import Mathlib

/-!
Shallow embedding of `src/bin/evtxview/app.rs` from the dfir-toolkit
repository: the `App` state machine of the interactive evtx viewer
(selection and scroll control, filter-mutation dispatch, pane sizing,
and the per-tick ingestion poll).

External collaborators are modelled abstractly:
- ratatui's `TableState` keeps only its `selected : Option Nat` field;
- ratatui's `ScrollbarState` keeps its position and content length;
- `EvtxTable` (repository code outside the provided sources) is reduced
  to its filtered length.  A call into its filter engine may change that
  length arbitrarily, so every command that reaches the engine carries an
  oracle value for the resulting length, and the per-tick `update` (the
  ingestion poll) carries an oracle count of newly passing records.
  Modelled from the spec: the Filter Engine recomputes the View on any
  predicate mutation (its new length is unconstrained), and the Ingestion
  Bridge only appends, so polling extends the View monotonically.

A ghost `trace` field records, in order, each ingestion poll, each key
event dispatched, and each invocation of the filter engine; the Rust
code has no such field, it is instrumentation for the temporal claims.

`assert_ne!(steps, 0)` in `next`/`previous` panics when violated; the
model returns `none` (an `Option App`) in exactly that case.
-/

/-- Layout direction of the two panes, mirroring ratatui's `Direction`. -/
inductive Direction where
  | horizontal
  | vertical
deriving Repr, DecidableEq

/-- Model of ratatui's `TableState`: only the selected row is relevant to
the viewer's logic. -/
structure TableState where
  selected : Option Nat
deriving Repr, DecidableEq

/-- Mirrors `TableState::select`. -/
def TableState.select (s : TableState) (idx : Option Nat) : TableState :=
  { s with selected := idx }

/-- Mirrors `TableState::default().with_selected(0)` used in `App::new`. -/
def TableState.initial : TableState :=
  { selected := some 0 }

/-- One invocation of the `EvtxTable` filter engine, with the row index it
was applied to (for the at-cursor operations). -/
inductive EngineCall where
  | excludeEventId (row : Nat)
  | includeEventId (row : Nat)
  | excludeUser (row : Nat)
  | includeUser (row : Nat)
  | resetFilter
deriving Repr, DecidableEq

/-- A keyboard command as dispatched by `App::handle_key_event`.  Commands
that invoke the filter engine carry an oracle for the table length the
engine recomputes (the engine lives outside the embedded sources and the
spec leaves the recomputed View length unconstrained). -/
inductive Cmd where
  | quit
  | jumpFirst
  | jumpLast
  | down
  | up
  | pageDown
  | pageUp
  | excludeEventId (newLen : Nat)
  | includeEventId (newLen : Nat)
  | excludeUser (newLen : Nat)
  | includeUser (newLen : Nat)
  | resetFilter (newLen : Nat)
  | changeOrientation
  | incTableSize
  | decTableSize
  | otherKey
deriving Repr, DecidableEq

/-- Ghost trace entries: an ingestion poll (`EvtxTable::update`), the
dispatch of one key event, or one filter-engine invocation. -/
inductive TickAction where
  | poll
  | key (c : Cmd)
  | engine (e : EngineCall)
deriving Repr, DecidableEq

/-- The `App` struct of `app.rs`.  `tableLen` stands for
`evtx_table.len()` (the current View length); `tableScrollPos` and
`tableScrollContentLen` model the table `ScrollbarState`;
`detailsScrollPos` models the details `ScrollbarState`;
`tableViewPortHeight` is the height of `table_view_port` (set by the
renderer, constant across input handling); `trace` is ghost
instrumentation. -/
structure App where
  tableLen : Nat
  exitFlag : Bool
  state : TableState
  tableScrollPos : Nat
  tableScrollContentLen : Nat
  detailsScrollPos : Nat
  tableViewPortHeight : Nat
  orientation : Direction
  tablePercentage : Nat
  trace : List TickAction
deriving Repr, DecidableEq

/-- Mirrors `App::new`: the initial state.  `initLen` is the length the
freshly built `EvtxTable` reports (ingestion is incremental, so this is
typically 0); the Rust code computes the scrollbar content length as
`if table_len == 0 { 0 } else { table_len - 1 }`. -/
def App.new (initLen : Nat) : App :=
  { tableLen := initLen
    exitFlag := false
    state := TableState.initial
    tableScrollPos := 0
    tableScrollContentLen := if initLen = 0 then 0 else initLen - 1
    detailsScrollPos := 0
    tableViewPortHeight := 0
    orientation := Direction.horizontal
    tablePercentage := 50
    trace := [] }

/-- Mirrors `EvtxTable::is_empty` via the stored length. -/
def App.tableIsEmpty (a : App) : Bool :=
  a.tableLen == 0

/-- Mirrors `EvtxTable::update`, the ingestion poll.  Modelled from the
spec: `poll_new_records` returns the newly available records, each is
appended and offered to the incremental recompute, so the View grows by
the number of newly passing records (`newRecs`, an oracle).  Records a
`poll` trace entry. -/
def App.update (a : App) (newRecs : Nat) : App :=
  { a with
      tableLen := a.tableLen + newRecs
      trace := a.trace ++ [TickAction.poll] }

/-- Mirrors `App::exit`. -/
def App.doExit (a : App) : App :=
  { a with exitFlag := true }

/-- Mirrors `App::increase_table_size`. -/
def App.increase_table_size (a : App) : App :=
  if a.tablePercentage < 97 then
    { a with tablePercentage := a.tablePercentage + 1 }
  else
    a

/-- Mirrors `App::decrease_table_size`. -/
def App.decrease_table_size (a : App) : App :=
  if a.tablePercentage > 3 then
    { a with tablePercentage := a.tablePercentage - 1 }
  else
    a

/-- Mirrors `App::change_orientation`. -/
def App.change_orientation (a : App) : App :=
  { a with
      orientation :=
        match a.orientation with
        | Direction.horizontal => Direction.vertical
        | Direction.vertical => Direction.horizontal }

/-- Invoke the filter engine: Modelled from the spec, the engine
recomputes the View, whose new length is the oracle `newLen`; the call is
recorded in the ghost trace. -/
def App.engineInvoke (a : App) (e : EngineCall) (newLen : Nat) : App :=
  { a with
      tableLen := newLen
      trace := a.trace ++ [TickAction.engine e] }

/-- Mirrors `App::exclude_event_id`: only when the table is non-empty and
a row is selected is the engine invoked. -/
def App.exclude_event_id (a : App) (newLen : Nat) : App :=
  if !a.tableIsEmpty then
    match a.state.selected with
    | some i => a.engineInvoke (EngineCall.excludeEventId i) newLen
    | none => a
  else
    a

/-- Mirrors `App::include_event_id`. -/
def App.include_event_id (a : App) (newLen : Nat) : App :=
  if !a.tableIsEmpty then
    match a.state.selected with
    | some i => a.engineInvoke (EngineCall.includeEventId i) newLen
    | none => a
  else
    a

/-- Mirrors `App::exclude_user`. -/
def App.exclude_user (a : App) (newLen : Nat) : App :=
  if !a.tableIsEmpty then
    match a.state.selected with
    | some i => a.engineInvoke (EngineCall.excludeUser i) newLen
    | none => a
  else
    a

/-- Mirrors `App::include_user`. -/
def App.include_user (a : App) (newLen : Nat) : App :=
  if !a.tableIsEmpty then
    match a.state.selected with
    | some i => a.engineInvoke (EngineCall.includeUser i) newLen
    | none => a
  else
    a

/-- Mirrors `App::reset_filter` (unconditional engine invocation). -/
def App.reset_filter (a : App) (newLen : Nat) : App :=
  a.engineInvoke EngineCall.resetFilter newLen

/-- Mirrors `App::set_selected`: selects `Some(idx)` unconditionally and
moves the table scrollbar position to `idx`. -/
def App.set_selected (a : App) (idx : Nat) : App :=
  { a with
      state := a.state.select (some idx)
      tableScrollPos := idx }

/-- Mirrors `App::next`.  The leading `assert_ne!(steps, 0)` panics on a
zero step count, modelled as `none`. -/
def App.next (a : App) (steps : Nat) : Option App :=
  if steps = 0 then
    none
  else
    some <|
      if !a.tableIsEmpty then
        let i :=
          match a.state.selected with
          | some i => min (i + steps) (a.tableLen - 1)
          | none => 0
        a.set_selected i
      else
        a

/-- Mirrors `App::previous`.  The leading `assert_ne!(steps, 0)` panics
on a zero step count, modelled as `none`; note there is no emptiness
check, unlike `next`. -/
def App.previous (a : App) (steps : Nat) : Option App :=
  if steps = 0 then
    none
  else
    some <|
      let i :=
        match a.state.selected with
        | some i => if i < steps then 0 else i - steps
        | none => 0
      a.set_selected i

/-- The dispatch body of `App::handle_key_event` (everything after its
`self.evtx_table.update()` call), one arm per key binding; records the
dispatched key in the ghost trace before applying its effect. -/
def App.applyCmd (a : App) (c : Cmd) : Option App :=
  let a := { a with trace := a.trace ++ [TickAction.key c] }
  match c with
  | Cmd.quit => some a.doExit
  | Cmd.jumpFirst => some (a.set_selected 0)
  | Cmd.jumpLast => some (a.set_selected (max a.tableLen 1 - 1))
  | Cmd.down => a.next 1
  | Cmd.up => a.previous 1
  | Cmd.pageDown => a.next (a.tableViewPortHeight / 2)
  | Cmd.pageUp => a.previous (a.tableViewPortHeight / 2)
  | Cmd.excludeEventId newLen => some (a.exclude_event_id newLen)
  | Cmd.includeEventId newLen => some (a.include_event_id newLen)
  | Cmd.excludeUser newLen => some (a.exclude_user newLen)
  | Cmd.includeUser newLen => some (a.include_user newLen)
  | Cmd.resetFilter newLen => some (a.reset_filter newLen)
  | Cmd.changeOrientation => some a.change_orientation
  | Cmd.incTableSize => some a.increase_table_size
  | Cmd.decTableSize => some a.decrease_table_size
  | Cmd.otherKey => some a

/-- Mirrors `App::handle_key_event`: first `self.evtx_table.update()`
(with its ingestion oracle), then the key dispatch. -/
def App.handle_key_event (a : App) (newRecs : Nat) (c : Cmd) : Option App :=
  (a.update newRecs).applyCmd c

/-- Mirrors `App::handle_events`, one UI tick: `self.evtx_table.update()`
first, then — if the bounded poll delivered a key-press event — that
event is handled (which itself starts with another `update`). -/
def App.handle_events (a : App) (newRecs : Nat)
    (ev : Option (Nat × Cmd)) : Option App :=
  let a := a.update newRecs
  match ev with
  | none => some a
  | some (nr, c) => a.handle_key_event nr c

/-- Run a sequence of key events through `App::handle_key_event`; `none`
as soon as one of them panics on the zero-step assertion. -/
def App.runKeys : App → List (Nat × Cmd) → Option App
  | a, [] => some a
  | a, (nr, c) :: rest =>
    match a.handle_key_event nr c with
    | none => none
    | some a2 => a2.runKeys rest

/-- The selection invariant claimed by the spec: `none` exactly when the
View is empty, otherwise an in-range index. -/
def selectionOk (a : App) : Bool :=
  match a.state.selected with
  | none => a.tableLen == 0
  | some i => decide (i < a.tableLen)

/-- The spec's selection-clamping claim, stated over all key-event
sequences from the initial application state. -/
def selectionClaimHolds : Prop :=
  ∀ (initLen : Nat) (cmds : List (Nat × Cmd)) (a : App),
    App.runKeys (App.new initLen) cmds = some a → selectionOk a = true

/-- An app state with an empty table and no selected row (the
precondition several spec sentences speak about; note the running
program never actually reaches a `none` selection). -/
def emptyNoSel : App :=
  { App.new 0 with state := { selected := none } }

/-- An app state with two rows and no selected row. -/
def twoRowsNoSel : App :=
  { App.new 2 with state := { selected := none } }

/-! ### Helper lemmas (shared across several claims) -/

lemma App.next_shape (a : App) (s : Nat) (b : App)
    (h : a.next s = some b) : b = a ∨ ∃ i, b = a.set_selected i := by
  unfold App.next at h
  split at h
  · cases h
  · rw [Option.some_inj] at h
    split at h
    · exact Or.inr ⟨_, h.symm⟩
    · exact Or.inl h.symm

lemma App.previous_shape (a : App) (s : Nat) (b : App)
    (h : a.previous s = some b) : ∃ i, b = a.set_selected i := by
  unfold App.previous at h
  split at h
  · cases h
  · rw [Option.some_inj] at h
    exact ⟨_, h.symm⟩

lemma App.exclude_event_id_preserves (a : App) (n : Nat) :
    (a.exclude_event_id n).state = a.state ∧
    (a.exclude_event_id n).tablePercentage = a.tablePercentage := by
  unfold App.exclude_event_id App.engineInvoke
  split
  · split <;> exact ⟨rfl, rfl⟩
  · exact ⟨rfl, rfl⟩

lemma App.include_event_id_preserves (a : App) (n : Nat) :
    (a.include_event_id n).state = a.state ∧
    (a.include_event_id n).tablePercentage = a.tablePercentage := by
  unfold App.include_event_id App.engineInvoke
  split
  · split <;> exact ⟨rfl, rfl⟩
  · exact ⟨rfl, rfl⟩

lemma App.exclude_user_preserves (a : App) (n : Nat) :
    (a.exclude_user n).state = a.state ∧
    (a.exclude_user n).tablePercentage = a.tablePercentage := by
  unfold App.exclude_user App.engineInvoke
  split
  · split <;> exact ⟨rfl, rfl⟩
  · exact ⟨rfl, rfl⟩

lemma App.include_user_preserves (a : App) (n : Nat) :
    (a.include_user n).state = a.state ∧
    (a.include_user n).tablePercentage = a.tablePercentage := by
  unfold App.include_user App.engineInvoke
  split
  · split <;> exact ⟨rfl, rfl⟩
  · exact ⟨rfl, rfl⟩

/-- Preservation of the two key invariants (selection is `some _`, table
percentage stays in `[3, 97]`) across one key dispatch. -/
lemma App.applyCmd_inv (a b : App) (c : Cmd)
    (h : a.applyCmd c = some b) :
    (a.state.selected.isSome = true → b.state.selected.isSome = true) ∧
    (3 ≤ a.tablePercentage ∧ a.tablePercentage ≤ 97 →
      3 ≤ b.tablePercentage ∧ b.tablePercentage ≤ 97) := by
  unfold App.applyCmd at h
  cases c
  case quit =>
    rw [Option.some_inj] at h
    exact h ▸ ⟨fun g => g, fun g => g⟩
  case jumpFirst =>
    rw [Option.some_inj] at h
    exact h ▸ ⟨fun _ => rfl, fun g => g⟩
  case jumpLast =>
    rw [Option.some_inj] at h
    exact h ▸ ⟨fun _ => rfl, fun g => g⟩
  case down =>
    rcases App.next_shape _ _ _ h with h2 | ⟨i, h2⟩
    · exact h2 ▸ ⟨fun g => g, fun g => g⟩
    · exact h2 ▸ ⟨fun _ => rfl, fun g => g⟩
  case up =>
    rcases App.previous_shape _ _ _ h with ⟨i, h2⟩
    exact h2 ▸ ⟨fun _ => rfl, fun g => g⟩
  case pageDown =>
    rcases App.next_shape _ _ _ h with h2 | ⟨i, h2⟩
    · exact h2 ▸ ⟨fun g => g, fun g => g⟩
    · exact h2 ▸ ⟨fun _ => rfl, fun g => g⟩
  case pageUp =>
    rcases App.previous_shape _ _ _ h with ⟨i, h2⟩
    exact h2 ▸ ⟨fun _ => rfl, fun g => g⟩
  case excludeEventId n =>
    rw [Option.some_inj] at h
    subst h
    rcases App.exclude_event_id_preserves
      { a with trace := a.trace ++ [TickAction.key (Cmd.excludeEventId n)] } n
      with ⟨h1, h2⟩
    rw [h1, h2]
    exact ⟨fun g => g, fun g => g⟩
  case includeEventId n =>
    rw [Option.some_inj] at h
    subst h
    rcases App.include_event_id_preserves
      { a with trace := a.trace ++ [TickAction.key (Cmd.includeEventId n)] } n
      with ⟨h1, h2⟩
    rw [h1, h2]
    exact ⟨fun g => g, fun g => g⟩
  case excludeUser n =>
    rw [Option.some_inj] at h
    subst h
    rcases App.exclude_user_preserves
      { a with trace := a.trace ++ [TickAction.key (Cmd.excludeUser n)] } n
      with ⟨h1, h2⟩
    rw [h1, h2]
    exact ⟨fun g => g, fun g => g⟩
  case includeUser n =>
    rw [Option.some_inj] at h
    subst h
    rcases App.include_user_preserves
      { a with trace := a.trace ++ [TickAction.key (Cmd.includeUser n)] } n
      with ⟨h1, h2⟩
    rw [h1, h2]
    exact ⟨fun g => g, fun g => g⟩
  case resetFilter n =>
    rw [Option.some_inj] at h
    exact h ▸ ⟨fun g => g, fun g => g⟩
  case changeOrientation =>
    rw [Option.some_inj] at h
    exact h ▸ ⟨fun g => g, fun g => g⟩
  case incTableSize =>
    rw [Option.some_inj] at h
    subst h
    unfold App.increase_table_size
    constructor
    · intro g
      split <;> exact g
    · intro g
      split <;> simp_all <;> omega
  case decTableSize =>
    rw [Option.some_inj] at h
    subst h
    unfold App.decrease_table_size
    constructor
    · intro g
      split <;> exact g
    · intro g
      split <;> simp_all <;> omega
  case otherKey =>
    rw [Option.some_inj] at h
    exact h ▸ ⟨fun g => g, fun g => g⟩

lemma App.handle_key_event_inv (a b : App) (nr : Nat) (c : Cmd)
    (h : a.handle_key_event nr c = some b) :
    (a.state.selected.isSome = true → b.state.selected.isSome = true) ∧
    (3 ≤ a.tablePercentage ∧ a.tablePercentage ≤ 97 →
      3 ≤ b.tablePercentage ∧ b.tablePercentage ≤ 97) := by
  unfold App.handle_key_event at h
  have h2 := App.applyCmd_inv _ _ _ h
  simpa [App.update] using h2

lemma App.runKeys_inv (cmds : List (Nat × Cmd)) :
    ∀ a b : App, App.runKeys a cmds = some b →
      (a.state.selected.isSome = true → b.state.selected.isSome = true) ∧
      (3 ≤ a.tablePercentage ∧ a.tablePercentage ≤ 97 →
        3 ≤ b.tablePercentage ∧ b.tablePercentage ≤ 97) := by
  induction cmds with
  | nil =>
    intro a b h
    rw [App.runKeys, Option.some_inj] at h
    exact h ▸ ⟨fun g => g, fun g => g⟩
  | cons hd tl ih =>
    intro a b h
    rw [App.runKeys] at h
    split at h
    · cases h
    · rename_i a2 h2
      rcases App.handle_key_event_inv _ _ _ _ h2 with ⟨p1, p2⟩
      rcases ih a2 b h with ⟨q1, q2⟩
      exact ⟨fun g => q1 (p1 g), fun g => q2 (p2 g)⟩

/-! ### Claim theorems -/

/-- Claim C1, as stated, is refuted: already after a single `previous(1)`
navigation on an empty View (and indeed in the initial state itself) the
Selection is `Some(0)` while the View is empty, because `App::new` starts
with `with_selected(0)` and `previous` selects without an emptiness
check. -/
theorem selection_clamping_refuted : ¬ selectionClaimHolds := by
  intro h
  have h2 := h 0 [(0, Cmd.up)]
    { tableLen := 0, exitFlag := false, state := { selected := some 0 },
      tableScrollPos := 0, tableScrollContentLen := 0, detailsScrollPos := 0,
      tableViewPortHeight := 0, orientation := Direction.horizontal,
      tablePercentage := 50,
      trace := [TickAction.poll, TickAction.key Cmd.up] } (by decide)
  exact absurd h2 (by decide)

/-- Claim C1 (amended): for every sequence of filter mutations and
navigation commands from the initial application state, the Selection is
always `Some(i)` for some index `i` — it is never `none`, including when
the View is empty; no reconciliation keeps it inside the View's range. -/
theorem selection_never_none (initLen : Nat) (cmds : List (Nat × Cmd))
    (a : App) (h : App.runKeys (App.new initLen) cmds = some a) :
    a.state.selected.isSome = true :=
  (App.runKeys_inv cmds (App.new initLen) a h).1 rfl

/-- Witness for `selection_never_none` at a concrete run: one `Down` key
from the initial state with one newly ingested record. -/
theorem selection_never_none_witness :
    App.runKeys (App.new 0) [(1, Cmd.down)] =
      some
        { tableLen := 1, exitFlag := false, state := { selected := some 0 },
          tableScrollPos := 0, tableScrollContentLen := 0,
          detailsScrollPos := 0, tableViewPortHeight := 0,
          orientation := Direction.horizontal, tablePercentage := 50,
          trace := [TickAction.poll, TickAction.key Cmd.down] } ∧
    ({ tableLen := 1, exitFlag := false, state := { selected := some 0 },
       tableScrollPos := 0, tableScrollContentLen := 0,
       detailsScrollPos := 0, tableViewPortHeight := 0,
       orientation := Direction.horizontal, tablePercentage := 50,
       trace := [TickAction.poll, TickAction.key Cmd.down] } :
        App).state.selected.isSome = true :=
  ⟨by decide,
   selection_never_none 0 [(1, Cmd.down)] _ (by decide)⟩

/-- Claim C2: for nonzero `steps`, `next` from a non-empty View with
Selection `Some(i)` selects `min(i + steps, len - 1)`; from an empty View
it leaves the whole state unchanged. -/
theorem next_step_spec (a : App) (steps : Nat) (hs : steps ≠ 0) :
    (∀ i, a.state.selected = some i → a.tableLen ≠ 0 →
      a.next steps = some (a.set_selected (min (i + steps) (a.tableLen - 1))))
    ∧ (a.tableLen = 0 → a.next steps = some a) := by
  constructor
  · intro i hi hlen
    unfold App.next
    rw [if_neg hs]
    simp [App.tableIsEmpty, hi, hlen]
  · intro hlen
    unfold App.next
    rw [if_neg hs]
    simp [App.tableIsEmpty, hlen]

/-- Witness for `next_step_spec`: three rows, selection at 0, step 2. -/
theorem next_step_spec_witness :
    (App.new 3).next 2 = some ((App.new 3).set_selected 2) :=
  (next_step_spec (App.new 3) 2 (by decide)).1 0 rfl (by decide)

/-- Claim C3: for nonzero `steps`, `previous` with Selection `Some(i)`
selects `i - steps` saturating at 0 (natural subtraction), with no
underflow. -/
theorem previous_saturating_spec (a : App) (steps i : Nat) (hs : steps ≠ 0)
    (hi : a.state.selected = some i) :
    a.previous steps = some (a.set_selected (i - steps)) ∧
    (a.set_selected (i - steps)).state.selected = some (i - steps) := by
  refine ⟨?_, rfl⟩
  have e : (if i < steps then 0 else i - steps) = i - steps := by
    split <;> omega
  unfold App.previous
  rw [if_neg hs]
  simp [hi, e]

/-- Witness for `previous_saturating_spec`: `previous(3)` from index 1
clamps to 0. -/
theorem previous_saturating_spec_witness :
    ((App.new 5).set_selected 1).previous 3 =
      some (((App.new 5).set_selected 1).set_selected 0) ∧
    ((((App.new 5).set_selected 1)).set_selected 0).state.selected =
      some 0 :=
  previous_saturating_spec ((App.new 5).set_selected 1) 3 1 (by decide) rfl

/-- Claim C4, as stated, is refuted: on an empty Record Store with no
selection, `next(1)` is indeed a no-op, but `previous(1)` is not — it
lacks the emptiness guard and sets the Selection to `Some(0)` (and the
scroll position to 0). -/
theorem empty_previous_not_noop :
    emptyNoSel.tableLen = 0 ∧ emptyNoSel.state.selected = none ∧
    emptyNoSel.previous 1 = some (emptyNoSel.set_selected 0) ∧
    (emptyNoSel.set_selected 0).state.selected = some 0 ∧
    emptyNoSel.previous 1 ≠ some emptyNoSel := by decide

/-- Claim C4 (amended): on an empty table with no selection, `next(1)`
changes nothing, while `previous(1)` sets the Selection to `Some(0)`;
neither raises an error. -/
theorem empty_none_navigation (a : App) (hlen : a.tableLen = 0)
    (hsel : a.state.selected = none) :
    a.next 1 = some a ∧ a.previous 1 = some (a.set_selected 0) := by
  constructor
  · unfold App.next
    rw [if_neg one_ne_zero]
    simp [App.tableIsEmpty, hlen]
  · unfold App.previous
    rw [if_neg one_ne_zero]
    simp [hsel]

/-- Witness for `empty_none_navigation` at the concrete empty,
unselected state. -/
theorem empty_none_navigation_witness :
    emptyNoSel.next 1 = some emptyNoSel ∧
    emptyNoSel.previous 1 = some (emptyNoSel.set_selected 0) :=
  empty_none_navigation emptyNoSel rfl rfl

/-- Claim C5, as stated, is refuted: `set_selected` performs no range
check at all — `set_selected(5)` on an empty View yields `Some(5)`, not
`none` — and the jump-to-last key on an empty View yields `Some(0)`. -/
theorem set_selected_no_clamp_refuted :
    (App.new 0).tableLen = 0 ∧
    ((App.new 0).set_selected 5).state.selected = some 5 ∧
    ((App.new 0).set_selected 5).state.selected ≠ none ∧
    ((App.new 0).handle_key_event 0 Cmd.jumpLast).map
        (fun b => b.state.selected) = some (some 0) := by
  decide

/-- Claim C5 (amended): `set_selected(i)` unconditionally sets the
Selection to `Some(i)` and the scroll position to `i`, with no clamping
and no emptiness check; the jump-to-last computation on an empty View
selects index 0 (hence `Some(0)`, not `none`). -/
theorem set_selected_unconditional (a : App) (i : Nat) :
    (a.set_selected i).state.selected = some i ∧
    (a.set_selected i).tableScrollPos = i ∧
    (a.tableLen = 0 →
      a.set_selected (max a.tableLen 1 - 1) = a.set_selected 0) := by
  refine ⟨rfl, rfl, ?_⟩
  intro hlen
  rw [hlen]
  norm_num

/-- Witness for `set_selected_unconditional` on the empty initial state
with the out-of-range index 7. -/
theorem set_selected_unconditional_witness :
    ((App.new 0).set_selected 7).state.selected = some 7 ∧
    ((App.new 0).set_selected 7).tableScrollPos = 7 ∧
    (App.new 0).set_selected (max (App.new 0).tableLen 1 - 1) =
      (App.new 0).set_selected 0 :=
  ⟨(set_selected_unconditional (App.new 0) 7).1,
   (set_selected_unconditional (App.new 0) 7).2.1,
   (set_selected_unconditional (App.new 0) 7).2.2 rfl⟩

/-- Claim C6: the code violates its own zero-step assertion.  When the
table viewport height is below 2 (here: the height-0 viewport of a
freshly created app, or any terminal too small for the table pane),
PageDown and PageUp pass `height / 2 = 0` into `next`/`previous`, whose
`assert_ne!(steps, 0)` then fires (modelled as `none`); Up and Down, by
contrast, always pass 1 and never trip it. -/
theorem pagedown_zero_step_assertion_fires :
    (App.new 5).tableViewPortHeight = 0 ∧
    (App.new 5).handle_key_event 0 Cmd.pageDown = none ∧
    (App.new 5).handle_key_event 0 Cmd.pageUp = none ∧
    (App.new 5).handle_key_event 0 Cmd.down ≠ none ∧
    (App.new 5).handle_key_event 0 Cmd.up ≠ none := by
  decide

/-- Claim C7: each of the four at-cursor filter-mutation commands is a
strict no-op (the returned state is the input state, so in particular no
filter-engine invocation is recorded in the ghost trace) whenever the
table is empty or no row is selected, and it never errors (the functions
are total). -/
theorem filter_commands_noop_when_unselected (a : App) (newLen : Nat)
    (h : a.tableLen = 0 ∨ a.state.selected = none) :
    a.exclude_event_id newLen = a ∧ a.include_event_id newLen = a ∧
    a.exclude_user newLen = a ∧ a.include_user newLen = a := by
  rcases h with h | h
  · have hb : a.tableIsEmpty = true := by simp [App.tableIsEmpty, h]
    refine ⟨?_, ?_, ?_, ?_⟩ <;>
      simp [App.exclude_event_id, App.include_event_id, App.exclude_user,
            App.include_user, hb]
  · refine ⟨?_, ?_, ?_, ?_⟩ <;>
      · simp only [App.exclude_event_id, App.include_event_id,
                   App.exclude_user, App.include_user]
        rw [h]
        split <;> rfl

/-- Witness for `filter_commands_noop_when_unselected` on the empty
initial state. -/
theorem filter_commands_noop_when_unselected_witness :
    (App.new 0).exclude_event_id 9 = App.new 0 ∧
    (App.new 0).include_event_id 9 = App.new 0 ∧
    (App.new 0).exclude_user 9 = App.new 0 ∧
    (App.new 0).include_user 9 = App.new 0 :=
  filter_commands_noop_when_unselected (App.new 0) 9 (Or.inl rfl)

/-- Claim C8, as stated, is refuted: a tick that delivers a key event
performs the ingestion poll twice, not exactly once — once at the start
of `handle_events` and once more at the start of `handle_key_event` —
as the ghost trace of one concrete tick shows. -/
theorem tick_polls_twice_with_input :
    (App.new 0).trace.count TickAction.poll = 0 ∧
    (App.new 0).handle_events 0 (some (0, Cmd.down)) =
      some
        { tableLen := 0, exitFlag := false, state := { selected := some 0 },
          tableScrollPos := 0, tableScrollContentLen := 0,
          detailsScrollPos := 0, tableViewPortHeight := 0,
          orientation := Direction.horizontal, tablePercentage := 50,
          trace := [TickAction.poll, TickAction.poll,
                    TickAction.key Cmd.down] } ∧
    ([TickAction.poll, TickAction.poll,
      TickAction.key Cmd.down] : List TickAction).count TickAction.poll
      = 2 := by
  decide

/-- Claim C8 (amended): every tick polls ingestion at its start; a tick
with no input does exactly that one poll, while a tick that delivers a
key event polls a second time at the start of key handling — and both
polls are applied to the state before the key's effect, as the
structural equations show. -/
theorem tick_poll_ordering (a : App) (nr : Nat) :
    a.handle_events nr none = some (a.update nr) ∧
    ∀ (nr2 : Nat) (c : Cmd),
      a.handle_events nr (some (nr2, c)) =
        ((a.update nr).update nr2).applyCmd c :=
  ⟨rfl, fun _ _ => rfl⟩

/-- Claim C9: the table/detail split percentage starts at 50 and, over
every sequence of key events, remains in `[3, 97]`, so the complementary
pane percentage `100 - p` never underflows (it stays at least 3). -/
theorem table_percentage_invariant (initLen : Nat)
    (cmds : List (Nat × Cmd)) (a : App)
    (h : App.runKeys (App.new initLen) cmds = some a) :
    (App.new initLen).tablePercentage = 50 ∧
    3 ≤ a.tablePercentage ∧ a.tablePercentage ≤ 97 ∧
    3 ≤ 100 - a.tablePercentage := by
  have h2 := (App.runKeys_inv cmds (App.new initLen) a h).2
    ⟨by norm_num [App.new], by norm_num [App.new]⟩
  exact ⟨rfl, h2.1, h2.2, by omega⟩

/-- Witness for `table_percentage_invariant` on the empty run. -/
theorem table_percentage_invariant_witness :
    (App.new 0).tablePercentage = 50 ∧
    3 ≤ (App.new 0).tablePercentage ∧ (App.new 0).tablePercentage ≤ 97 ∧
    3 ≤ 100 - (App.new 0).tablePercentage :=
  table_percentage_invariant 0 [] (App.new 0) rfl

/-- Claim C10: for nonzero `steps`, navigating from a `none` selection
lands on the first row: `next` does so when the table is non-empty, and
`previous` does so unconditionally. -/
theorem navigation_from_none_selects_first (a : App) (steps : Nat)
    (hs : steps ≠ 0) (hsel : a.state.selected = none) :
    (a.tableLen ≠ 0 → a.next steps = some (a.set_selected 0)) ∧
    a.previous steps = some (a.set_selected 0) ∧
    (a.set_selected 0).state.selected = some 0 := by
  refine ⟨?_, ?_, rfl⟩
  · intro hlen
    unfold App.next
    rw [if_neg hs]
    simp [App.tableIsEmpty, hlen, hsel]
  · unfold App.previous
    rw [if_neg hs]
    simp [hsel]

/-- Witness for `navigation_from_none_selects_first` on a two-row table
with no selection. -/
theorem navigation_from_none_selects_first_witness :
    twoRowsNoSel.next 1 = some (twoRowsNoSel.set_selected 0) ∧
    twoRowsNoSel.previous 1 = some (twoRowsNoSel.set_selected 0) ∧
    (twoRowsNoSel.set_selected 0).state.selected = some 0 :=
  ⟨(navigation_from_none_selects_first twoRowsNoSel 1 (by decide) rfl).1
      (by decide),
   (navigation_from_none_selects_first twoRowsNoSel 1 (by decide) rfl).2.1,
   (navigation_from_none_selects_first twoRowsNoSel 1 (by decide) rfl).2.2⟩
